import Mathlib

/-!
Verification development for the EdgeDetectionViewer native core
(edge_detection.cpp, gl_renderer.cpp, jni_bridge.cpp, image_processor.h).

The C++ is shallowly embedded: pixel matrices become a structure of
dimensions plus a row-major interleaved data list, the boolean-with-log
failure convention of the source becomes an explicit error type following
the code's distinct failure paths, GPU calls become a trace of commands,
and the JNI stats globals become explicit state passing.  External
library calls (OpenCV, GLES) are modelled from their documented
contracts at exactly the fidelity the statements below inspect; each
such definition says in its doc comment what is and is not modelled.
-/

/-- Pixel matrix in the style of cv::Mat: dimensions, channel count and
row-major interleaved channel data. -/
structure Mat (α : Type) where
  rows : Nat
  cols : Nat
  channels : Nat
  data : List α
deriving Repr, DecidableEq

/-- cv::Mat::empty: the matrix has no pixels. -/
def Mat.isEmpty {α : Type} (m : Mat α) : Prop := m.rows * m.cols = 0

instance {α : Type} (m : Mat α) : Decidable m.isEmpty :=
  inferInstanceAs (Decidable (m.rows * m.cols = 0))

/-- Failure taxonomy of the spec, attached to the code's distinct failure
paths: the explicit empty-input checks log and return false
(InvalidInput), caught library exceptions log and return false
(ProcessingFailure).  The C++ collapses all of these to a boolean. -/
inductive Failure
  | InvalidInput
  | InvalidParameter
  | ProcessingFailure
deriving Repr, DecidableEq

/-- Fixed-point grayscale weighting used by OpenCV for 8-bit color-to-gray
conversion: Y = (R*4899 + G*9617 + B*1868 + 8192) >> 14. -/
def rgb2grayFix (r g b : Nat) : Nat :=
  (r * 4899 + g * 9617 + b * 1868 + 8192) / 16384

/-- Pixel data of cv::cvtColor COLOR_RGBA2GRAY: each RGBA quadruple maps to
one gray intensity; the alpha channel is ignored. -/
def rgbaToGrayData : List Nat → List Nat
  | r :: g :: b :: _ :: rest => rgb2grayFix r g b :: rgbaToGrayData rest
  | _ => []

/-- Pixel data of cv::cvtColor COLOR_BGR2GRAY: each BGR triple maps to one
gray intensity. -/
def bgrToGrayData : List Nat → List Nat
  | b :: g :: r :: rest => rgb2grayFix r g b :: bgrToGrayData rest
  | _ => []

/-- cv::cvtColor COLOR_RGBA2GRAY on a matrix: same dimensions, one channel. -/
def cvtColorRGBA2GRAY (m : Mat Nat) : Mat Nat :=
  ⟨m.rows, m.cols, 1, rgbaToGrayData m.data⟩

/-- cv::cvtColor COLOR_BGR2GRAY on a matrix: same dimensions, one channel. -/
def cvtColorBGR2GRAY (m : Mat Nat) : Mat Nat :=
  ⟨m.rows, m.cols, 1, bgrToGrayData m.data⟩

/-- Grayscale-normalisation dispatch shared by applyCanny (edge_detection.cpp
lines 39-45) and applySobel (lines 83-89): 4-channel input is converted from
RGBA, 3-channel from BGR, and any other channel count is cloned unchanged
(the else branch performs no validation). -/
def toGray (m : Mat Nat) : Mat Nat :=
  if m.channels = 4 then cvtColorRGBA2GRAY m
  else if m.channels = 3 then cvtColorBGR2GRAY m
  else m

/-- cv::GaussianBlur, modelled from external library documentation.
Kernel-size rule: a positive odd size is used as given; a non-positive size
with positive sigma is replaced by an odd size derived from sigma; a
positive even size raises cv::Exception, which the callers in
edge_detection.cpp catch and surface as a generic failure.  On an accepted
size the destination has the same size and channel count as the source; the
smoothed pixel values are external library behaviour no statement below
depends on, modelled as the identity. -/
def gaussianBlur (m : Mat Nat) (ksize : Int) (sigma : ℚ) : Except Failure (Mat Nat) :=
  if (ksize ≤ 0 ∧ 0 < sigma) ∨ (0 < ksize ∧ ksize % 2 = 1) then .ok m
  else .error .ProcessingFailure

/-- cv::Canny, modelled from external library documentation: accepts 8-bit
input of any channel count and produces a single-channel edge map of the
same size whose pixels are 0 or 255.  The gradient, non-maximum-suppression
and hysteresis computation is external library code no statement below
depends on; a pixel is marked when its first-channel intensity reaches the
high threshold. -/
def cannyCore (m : Mat Nat) (low high : ℚ) : Mat Nat :=
  ⟨m.rows, m.cols, 1,
   (List.range (m.rows * m.cols)).map
     (fun i => if high ≤ ((m.data.getD (i * m.channels) 0 : Nat) : ℚ) then 255 else 0)⟩

/-- applyCanny (edge_detection.cpp lines 27-64): reject an empty input,
normalise to gray, Gaussian-blur with the caller kernel size and fixed
sigma 1.4, then run Canny with the caller thresholds. -/
def applyCanny (m : Mat Nat) (low high : ℚ) (kernelSize : Int) : Except Failure (Mat Nat) :=
  if m.isEmpty then .error .InvalidInput
  else
    match gaussianBlur (toGray m) kernelSize (14/10) with
    | .error e => .error e
    | .ok blurred => .ok (cannyCore blurred low high)

/-- cvRound of the real square root of a natural number: the nearest integer
to sqrt n (the real square root of an integer is never exactly halfway
between two integers, so rounding direction ties cannot arise, and the
double-precision evaluation in cv::magnitude is exact enough that its
rounding agrees with the real-valued rounding for the 8-bit Sobel range). -/
def roundSqrt (n : Nat) : Nat :=
  if Nat.sqrt n * Nat.sqrt n + Nat.sqrt n + 1 ≤ n then Nat.sqrt n + 1 else Nat.sqrt n

/-- saturate_cast to uchar of a non-negative rounded value: clamp at 255. -/
def saturateCastU8 (n : Nat) : Nat := min n 255

/-- Per-pixel translation of edge_detection.cpp lines 100-105: cv::magnitude
computes sqrt(gx*gx + gy*gy) on the CV_64F Sobel derivatives (exact
integers), and Mat::convertTo to CV_8UC1 applies saturate_cast, i.e. rounds
and clamps into the 8-bit range. -/
def sobelPixelTo8U (gx gy : Int) : Nat :=
  saturateCastU8 (roundSqrt (gx * gx + gy * gy).toNat)

/-- Modelled from the spec: the per-pixel 8-bit conversion the spec asserts
for the Sobel magnitude — direct integer cast truncation followed by
reduction mod 256 — written here only to be compared against the code's
sobelPixelTo8U. -/
def sobelPixelTruncU8 (gx gy : Int) : Nat :=
  Nat.sqrt (gx * gx + gy * gy).toNat % 256

/-- cv::Sobel aperture-size rule from external library documentation: the
kernel size must be 1, 3, 5 or 7. -/
def sobelKsizeOK (k : Int) : Prop := k = 1 ∨ k = 3 ∨ k = 5 ∨ k = 7

instance (k : Int) : Decidable (sobelKsizeOK k) :=
  inferInstanceAs (Decidable (k = 1 ∨ k = 3 ∨ k = 5 ∨ k = 7))

/-- cv::Sobel, modelled from its documented contract: a CV_64F derivative
image of the same size and channel count as the source.  The derivative
values are external library behaviour no statement below depends on. -/
def sobelDeriv (m : Mat Nat) (dx dy : Nat) : Mat Int :=
  ⟨m.rows, m.cols, m.channels, m.data.map (fun v => (v : Int))⟩

/-- applySobel (edge_detection.cpp lines 73-117): reject an empty input,
normalise to gray, blur with fixed kernel 3 and sigma 0, compute the two
Sobel derivatives, then combine per pixel as the saturating 8-bit
conversion of the Euclidean magnitude (lines 100-105, sobelPixelTo8U). -/
def applySobel (m : Mat Nat) (kernelSize : Int) : Except Failure (Mat Nat) :=
  if m.isEmpty then .error .InvalidInput
  else
    match gaussianBlur (toGray m) 3 0 with
    | .error e => .error e
    | .ok blurred =>
      if sobelKsizeOK kernelSize then
        .ok ⟨blurred.rows, blurred.cols, blurred.channels,
             List.zipWith sobelPixelTo8U
               (sobelDeriv blurred 1 0).data (sobelDeriv blurred 0 1).data⟩
      else .error .ProcessingFailure

/-- cv::merge of four copies of the edge map (edge_detection.cpp lines
134-140): interleave each intensity into all four output channels. -/
def rgbaExpand : List Nat → List Nat
  | [] => []
  | v :: rest => v :: v :: v :: v :: rgbaExpand rest

/-- edgeToRGBA (edge_detection.cpp lines 125-148): reject an empty edge map,
otherwise replicate the single channel into B, G, R and A. -/
def edgeToRGBA (e : Mat Nat) : Except Failure (Mat Nat) :=
  if e.isEmpty then .error .InvalidInput
  else .ok ⟨e.rows, e.cols, 4, rgbaExpand e.data⟩

/-- memcpy of n bytes into the front of a caller buffer. -/
def writeOut {α : Type} (dst src : List α) (n : Nat) : List α :=
  src.take n ++ dst.drop n

/-- processFrame (edge_detection.cpp lines 158-203): validate the two
pointers, wrap the input as a height-by-width CV_8UC4 matrix, run Canny with
thresholds 50/150 and kernel 3, expand to RGBA, and only then copy
width*height*4 bytes into the caller buffer.  The result pairs the C++
boolean with the final contents of the caller's output buffer.  The
contiguous and row-by-row copy branches coincide here because the embedded
matrices are always tightly packed. -/
def processFrame (inputData : Option (List Nat)) (width height : Nat)
    (outputData : Option (List Nat)) : Bool × Option (List Nat) :=
  match inputData, outputData with
  | none, o => (false, o)
  | some _, none => (false, none)
  | some d, some o =>
    match applyCanny ⟨height, width, 4, d⟩ 50 150 3 with
    | .error _ => (false, some o)
    | .ok edge =>
      match edgeToRGBA edge with
      | .error _ => (false, some o)
      | .ok rgba => (true, some (writeOut o rgba.data (width * height * 4)))

/-! GPU presenter (gl_renderer.cpp).  GL state changes are embedded as a
trace of issued GL commands; driver-dependent outcomes (shader compilation,
program linking, resolved locations) are inputs of the model. -/

/-- ShaderProgram structure of image_processor.h lines 97-103. -/
structure ShaderProgram where
  programId : Nat
  positionAttrib : Int
  texCoordAttrib : Int
  textureUniform : Int
  mvpMatrixUniform : Int
deriving Repr, DecidableEq

/-- TextureInfo structure of image_processor.h lines 87-92. -/
structure TextureInfo where
  textureId : Nat
  width : Nat
  height : Nat
  format : Nat
deriving Repr, DecidableEq

/-- GL commands issued by renderTexture, in issue order.  Strides and
offsets are in bytes: 4 floats of 4 bytes per vertex, texture coordinates
2 floats in. -/
inductive GLCall
  | clearColorBuffer
  | useProgram (id : Nat)
  | activeTexture0
  | bindTexture2D (id : Nat)
  | uniform1i (loc : Int) (value : Int)
  | bindArrayBuffer (id : Nat)
  | vertexAttribPointer (loc : Int) (size stride offset : Nat)
  | enableVertexAttribArray (loc : Int)
  | bindElementArrayBuffer (id : Nat)
  | drawElementsTriangles (indexCount : Nat)
  | disableVertexAttribArray (loc : Int)
deriving Repr, DecidableEq

/-- renderTexture (gl_renderer.cpp lines 231-275), parameterised by the VBO
and EBO handles the file-static globals hold.  The boolean records whether
the guard fired (the ResourceInvalid diagnostic was logged); the list is the
trace of GL commands issued.  A zero program or texture handle makes the
call a logged no-op with an empty trace. -/
def renderTexture (vbo ebo : Nat) (sp : ShaderProgram) (ti : TextureInfo) :
    Bool × List GLCall :=
  if sp.programId = 0 ∨ ti.textureId = 0 then (true, [])
  else (false,
    [GLCall.clearColorBuffer,
     GLCall.useProgram sp.programId,
     GLCall.activeTexture0,
     GLCall.bindTexture2D ti.textureId,
     GLCall.uniform1i sp.textureUniform 0,
     GLCall.bindArrayBuffer vbo,
     GLCall.vertexAttribPointer sp.positionAttrib 2 16 0,
     GLCall.enableVertexAttribArray sp.positionAttrib,
     GLCall.vertexAttribPointer sp.texCoordAttrib 2 16 8,
     GLCall.enableVertexAttribArray sp.texCoordAttrib,
     GLCall.bindElementArrayBuffer ebo,
     GLCall.drawElementsTriangles 6,
     GLCall.disableVertexAttribArray sp.positionAttrib,
     GLCall.disableVertexAttribArray sp.texCoordAttrib])

/-- Driver-dependent outcomes of building the shader program: whether each
stage compiles, whether the link succeeds, and the locations the driver
resolves for the attributes and uniforms on success. -/
structure GLBuildEnv where
  vertexCompiles : Bool
  fragmentCompiles : Bool
  linkSucceeds : Bool
  positionLoc : Int
  texCoordLoc : Int
  textureLoc : Int
  mvpLoc : Int
deriving Repr, DecidableEq

/-- Resource events of createShaderProgram, in issue order. -/
inductive ShaderEvent
  | createVertexShader
  | createFragmentShader
  | deleteVertexShader
  | deleteFragmentShader
  | createProgramObject
  | deleteProgramObject
deriving Repr, DecidableEq

/-- ShaderProgram program equal to zero-initialised braces, as in
gl_renderer.cpp line 116. -/
def zeroShaderProgram : ShaderProgram := ⟨0, 0, 0, 0, 0⟩

/-- createShaderProgram (gl_renderer.cpp lines 115-176) with compileShader
(lines 53-75) inlined: a vertex compile failure deletes the vertex shader
inside compileShader and returns the zero program before the fragment stage
is ever created; a fragment compile failure deletes the fragment shader
inside compileShader and then the caller deletes the vertex shader; a link
failure deletes the program object, and the two shaders are deleted on every
path that created them (lines 152-153).  On success the driver-resolved
locations are cached and a nonzero handle (modelled as 1) is returned. -/
def createShaderProgram (env : GLBuildEnv) : ShaderProgram × List ShaderEvent :=
  if env.vertexCompiles = false then
    (zeroShaderProgram,
     [ShaderEvent.createVertexShader, ShaderEvent.deleteVertexShader])
  else if env.fragmentCompiles = false then
    (zeroShaderProgram,
     [ShaderEvent.createVertexShader, ShaderEvent.createFragmentShader,
      ShaderEvent.deleteFragmentShader, ShaderEvent.deleteVertexShader])
  else if env.linkSucceeds = false then
    (zeroShaderProgram,
     [ShaderEvent.createVertexShader, ShaderEvent.createFragmentShader,
      ShaderEvent.createProgramObject, ShaderEvent.deleteProgramObject,
      ShaderEvent.deleteVertexShader, ShaderEvent.deleteFragmentShader])
  else
    (⟨1, env.positionLoc, env.texCoordLoc, env.textureLoc, env.mvpLoc⟩,
     [ShaderEvent.createVertexShader, ShaderEvent.createFragmentShader,
      ShaderEvent.createProgramObject,
      ShaderEvent.deleteVertexShader, ShaderEvent.deleteFragmentShader])

/-! Boundary layer (jni_bridge.cpp).  The three file-static performance
globals become an explicit state record; wall-clock samples become
millisecond timestamps passed in. -/

/-- The three performance globals of jni_bridge.cpp lines 19-21. -/
structure Stats where
  frameCount : Nat
  averageFps : ℚ
  lastFrameTime : Nat
deriving Repr, DecidableEq

/-- nativeInit (jni_bridge.cpp lines 57-77): zero the frame counter and the
FPS figure and take a fresh time sample. -/
def nativeInit (now : Nat) : Stats := ⟨0, 0, now⟩

/-- Performance-metric update at the end of a successful frame
(jni_bridge.cpp lines 149-163): increment the counter, and on every 30th
frame recompute the average FPS as 30000 divided by the milliseconds since
the last sample and take a fresh sample; on every other frame leave the FPS
figure and the sample untouched. -/
def updatePerformanceMetrics (s : Stats) (frameEnd : Nat) : Stats :=
  if (s.frameCount + 1) % 30 = 0 then
    ⟨s.frameCount + 1, 30000 / ((frameEnd : ℚ) - (s.lastFrameTime : ℚ)), frameEnd⟩
  else
    ⟨s.frameCount + 1, s.averageFps, s.lastFrameTime⟩

/-- Metric state after a run of successfully processed frames with the given
end-of-frame timestamps. -/
def runFrames (s : Stats) (frameTimes : List Nat) : Stats :=
  frameTimes.foldl updatePerformanceMetrics s

/-- The JNI processFrame entry point (jni_bridge.cpp lines 88-171): reject a
null input array, reject a length that is not width*height*4, allocate a
zero-filled output array, run the native pipeline, and return null without
touching the performance state on any failure; only a successful frame
returns the output array and updates the metrics.  JNI array-pinning
failures are environment conditions not modelled (the environment is assumed
to pin and allocate). -/
def jniProcessFrame (s : Stats) (inputArray : Option (List Nat))
    (width height : Nat) (frameEnd : Nat) : Option (List Nat) × Stats :=
  match inputArray with
  | none => (none, s)
  | some arr =>
    if arr.length ≠ width * height * 4 then (none, s)
    else
      match processFrame (some arr) width height
          (some (List.replicate (width * height * 4) 0)) with
      | (true, some out) => (some out, updatePerformanceMetrics s frameEnd)
      | _ => (none, s)

/-! Helper lemmas shared by the claim theorems. -/

theorem gaussianBlur_eq_ok (m : Mat Nat) (ksize : Int) (sigma : ℚ)
    (h : (ksize ≤ 0 ∧ 0 < sigma) ∨ (0 < ksize ∧ ksize % 2 = 1)) :
    gaussianBlur m ksize sigma = .ok m := if_pos h

theorem gaussianBlur_eq_error (m : Mat Nat) (ksize : Int) (sigma : ℚ)
    (h : ¬ ((ksize ≤ 0 ∧ 0 < sigma) ∨ (0 < ksize ∧ ksize % 2 = 1))) :
    gaussianBlur m ksize sigma = .error .ProcessingFailure := if_neg h

/-! Claim C1: Sobel magnitude conversion to 8 bits. -/

/-- C1 counterexample: at gradient (300, 0) the magnitude 300 exceeds 255,
and the code's conversion (sobelPixelTo8U, translating cv::magnitude plus
Mat::convertTo at edge_detection.cpp lines 100-105) saturates to 255,
whereas the truncation-mod-256 semantics the claim asserts would give 44. -/
theorem c1_counterexample :
    (255 * 255 : Int) < 300 * 300 + 0 * 0 ∧
    sobelPixelTo8U 300 0 = 255 ∧
    sobelPixelTruncU8 300 0 = 44 ∧
    sobelPixelTo8U 300 0 ≠ sobelPixelTruncU8 300 0 := by
  have ht : (300 * 300 + 0 * 0 : Int).toNat = 90000 := rfl
  have hs : Nat.sqrt 90000 = 300 := (Nat.eq_sqrt.mpr (by norm_num)).symm
  have h1 : sobelPixelTo8U 300 0 = 255 := by
    rw [sobelPixelTo8U, saturateCastU8, roundSqrt, ht, hs]
    norm_num
  have h2 : sobelPixelTruncU8 300 0 = 44 := by
    rw [sobelPixelTruncU8, ht, hs]
  exact ⟨by norm_num, h1, h2, by rw [h1, h2]; norm_num⟩

/-- C1 amended: whenever the Sobel gradient magnitude mathematically exceeds
255, the per-pixel 8-bit conversion of applySobel produces exactly 255 — a
saturating clamp via saturate_cast inside convertTo, not a truncating cast
reduced mod 256. -/
theorem c1_sobel_saturates (gx gy : Int) (h : 255 * 255 < gx * gx + gy * gy) :
    sobelPixelTo8U gx gy = 255 := by
  have hgx := mul_self_nonneg gx
  have hgy := mul_self_nonneg gy
  have hs : 255 ≤ Nat.sqrt (gx * gx + gy * gy).toNat := Nat.le_sqrt.mpr (by omega)
  unfold sobelPixelTo8U saturateCastU8 roundSqrt
  split <;> omega

theorem c1_sobel_saturates_witness :
    (255 * 255 : Int) < 300 * 300 + 0 * 0 ∧ sobelPixelTo8U 300 0 = 255 :=
  ⟨by norm_num, c1_sobel_saturates 300 0 (by norm_num)⟩

/-! Claim C2: input validation of the two detection entry points. -/

/-- C2 counterexample: a non-empty 2-channel input is not rejected with
InvalidInput — both applyCanny and applySobel fall into the untyped clone
branch of the channel dispatch and process it to a successful result. -/
theorem c2_counterexample :
    ¬ (Mat.mk 1 1 2 [10, 20] : Mat Nat).isEmpty ∧
    (Mat.mk 1 1 2 [10, 20] : Mat Nat).channels = 2 ∧
    applyCanny ⟨1, 1, 2, [10, 20]⟩ 100 200 3 = Except.ok (Mat.mk 1 1 1 [0]) ∧
    applySobel ⟨1, 1, 2, [0, 0]⟩ 3 = Except.ok (Mat.mk 1 1 2 [0, 0]) := by
  refine ⟨by decide, rfl, ?_, ?_⟩
  · unfold applyCanny gaussianBlur toGray cannyCore
    norm_num [Mat.isEmpty, List.range_succ]
  · unfold applySobel gaussianBlur toGray sobelDeriv
    norm_num [Mat.isEmpty, sobelKsizeOK, sobelPixelTo8U, roundSqrt, saturateCastU8]

/-- C2 amended: applyCanny and applySobel fail with InvalidInput exactly when
the input is empty; the channel count is never validated — a channel count
outside 1, 3, 4 (such as 2) is passed through the clone branch and
processed rather than rejected. -/
theorem c2_invalid_input_iff_empty (m : Mat Nat) (low high : ℚ) (k : Int) :
    (applyCanny m low high k = Except.error Failure.InvalidInput ↔ m.isEmpty) ∧
    (applySobel m k = Except.error Failure.InvalidInput ↔ m.isEmpty) := by
  by_cases h : m.isEmpty
  · constructor <;> simp [applyCanny, applySobel, h]
  · have h3 : gaussianBlur (toGray m) 3 0 = .ok (toGray m) :=
      gaussianBlur_eq_ok _ _ _ (by norm_num)
    constructor
    · by_cases hc : (k ≤ 0 ∧ 0 < (14/10 : ℚ)) ∨ (0 < k ∧ k % 2 = 1)
      · simp [applyCanny, h, gaussianBlur_eq_ok _ _ _ hc]
      · simp [applyCanny, h, gaussianBlur_eq_error _ _ _ hc]
    · by_cases hk : sobelKsizeOK k
      · simp [applySobel, h, h3, hk]
      · simp [applySobel, h, h3, hk]

theorem c2_invalid_input_iff_empty_witness :
    applyCanny (Mat.mk 0 0 4 []) 100 200 3 = Except.error Failure.InvalidInput :=
  (c2_invalid_input_iff_empty ⟨0, 0, 4, []⟩ 100 200 3).1.mpr (by decide)

/-! Claim C3: kernel-size validation on the Canny path. -/

/-- C3 counterexample: the non-positive kernel size 0 does not fail at all —
GaussianBlur derives an odd kernel from the fixed sigma 1.4 and the Canny
path completes successfully, contradicting the claimed InvalidParameter
failure for non-positive sizes. -/
theorem c3_counterexample :
    applyCanny ⟨1, 1, 4, [0, 0, 0, 0]⟩ 100 200 0 = Except.ok (Mat.mk 1 1 1 [0]) := by
  unfold applyCanny gaussianBlur toGray cvtColorRGBA2GRAY cannyCore
  norm_num [Mat.isEmpty, rgbaToGrayData, rgb2grayFix, List.range_succ]

/-- C3 amended: on a non-empty input the Canny path fails for the kernel
size exactly when the size is positive and even, and that failure is the
caught library exception surfaced as a generic processing failure, not a
typed InvalidParameter; a non-positive size does not fail (the blur replaces
it by a sigma-derived odd size), and every odd size at least 1 succeeds. -/
theorem c3_kernel_size (m : Mat Nat) (low high : ℚ) (k : Int) (hm : ¬ m.isEmpty) :
    (applyCanny m low high k = Except.error Failure.ProcessingFailure ↔
      0 < k ∧ k % 2 = 0) ∧
    (applyCanny m low high k = Except.ok (cannyCore (toGray m) low high) ↔
      ¬ (0 < k ∧ k % 2 = 0)) := by
  have hiff : ((k ≤ 0 ∧ 0 < (14/10 : ℚ)) ∨ (0 < k ∧ k % 2 = 1)) ↔
      ¬ (0 < k ∧ k % 2 = 0) := by
    constructor
    · rintro (⟨hk, -⟩ | ⟨hk, ho⟩) ⟨hp, he⟩ <;> omega
    · intro hn
      by_cases hk : 0 < k
      · exact Or.inr ⟨hk, by omega⟩
      · exact Or.inl ⟨by omega, by norm_num⟩
  by_cases hc : 0 < k ∧ k % 2 = 0
  · have he := gaussianBlur_eq_error (toGray m) k (14/10) (fun hcond => (hiff.mp hcond) hc)
    simp [applyCanny, hm, he, hc]
  · have ho := gaussianBlur_eq_ok (toGray m) k (14/10) (hiff.mpr hc)
    simp only [applyCanny, if_neg hm, ho]
    exact ⟨⟨fun h => absurd h (by simp), fun h => absurd h hc⟩,
           ⟨fun _ => hc, fun _ => trivial⟩⟩

theorem c3_kernel_size_witness :
    ¬ (Mat.mk 1 1 4 [0, 0, 0, 0] : Mat Nat).isEmpty ∧
    (applyCanny ⟨1, 1, 4, [0, 0, 0, 0]⟩ 100 200 2 = Except.error Failure.ProcessingFailure ↔
      0 < (2 : Int) ∧ (2 : Int) % 2 = 0) :=
  ⟨by decide, (c3_kernel_size ⟨1, 1, 4, [0, 0, 0, 0]⟩ 100 200 2 (by decide)).1⟩

/-! Claims C4, C5, C6: the realtime pipeline and the RGBA expansion. -/

theorem rgbaExpand_length (l : List Nat) : (rgbaExpand l).length = 4 * l.length := by
  induction l with
  | nil => rfl
  | cons v t ih =>
    simp only [rgbaExpand, List.length_cons, ih]
    omega

theorem rgbaExpand_get (l : List Nat) (i c : Nat) (hi : i < l.length) (hc : c < 4) :
    (rgbaExpand l).get? (4 * i + c) = l.get? i := by
  induction l generalizing i with
  | nil => simp at hi
  | cons v t ih =>
    cases i with
    | zero =>
      interval_cases c <;> rfl
    | succ j =>
      have h4 : 4 * (j + 1) + c = 4 * j + c + 1 + 1 + 1 + 1 := by ring
      rw [h4]
      simp only [rgbaExpand, List.get?_cons_succ]
      exact ih j (by simpa using Nat.lt_of_succ_lt_succ (by simpa using hi))

/-- C5: edgeToRGBA rejects an empty edge map with InvalidInput and otherwise
replicates each input intensity into all four channels of the expanded
buffer, so an input pixel of value V yields B equal to G equal to R equal to
A equal to V at that pixel. -/
theorem c5_expand_replicates (e : Mat Nat) (i c : Nat)
    (hi : i < e.data.length) (hc : c < 4) :
    (edgeToRGBA e = if e.isEmpty then Except.error Failure.InvalidInput
      else Except.ok (Mat.mk e.rows e.cols 4 (rgbaExpand e.data))) ∧
    (rgbaExpand e.data).get? (4 * i + c) = e.data.get? i :=
  ⟨rfl, rgbaExpand_get e.data i c hi hc⟩

theorem c5_expand_replicates_witness :
    0 < (Mat.mk 1 1 1 [7] : Mat Nat).data.length ∧ (0 : Nat) < 4 ∧
    (rgbaExpand (Mat.mk 1 1 1 [7] : Mat Nat).data).get? (4 * 0 + 0) =
      (Mat.mk 1 1 1 [7] : Mat Nat).data.get? 0 :=
  ⟨by decide, by decide,
   (c5_expand_replicates ⟨1, 1, 1, [7]⟩ 0 0 (by decide) (by decide)).2⟩

/-- C4: processFrame is exactly the composition of Canny with thresholds
50/150 and kernel 3 followed by edgeToRGBA; whenever that composition
succeeds, processFrame succeeds, the result is a height-by-width 4-channel
buffer of exactly width*height*4 bytes, and the caller buffer receives
exactly that data. -/
theorem c4_pipeline (d o : List Nat) (width height : Nat) (r : Mat Nat)
    (hpipe : (applyCanny (Mat.mk height width 4 d) 50 150 3).bind edgeToRGBA =
      Except.ok r)
    (ho : o.length = width * height * 4) :
    processFrame (some d) width height (some o) = (true, some r.data) ∧
    r.rows = height ∧ r.cols = width ∧ r.channels = 4 ∧
    r.data.length = width * height * 4 := by
  by_cases hemp : (Mat.mk height width 4 d : Mat Nat).isEmpty
  · simp [applyCanny, hemp, Except.bind] at hpipe
  · have hb : gaussianBlur (toGray ⟨height, width, 4, d⟩) 3 (14/10) =
        .ok (toGray ⟨height, width, 4, d⟩) :=
      gaussianBlur_eq_ok _ _ _ (by norm_num)
    have hc : applyCanny ⟨height, width, 4, d⟩ 50 150 3 =
        .ok (cannyCore (toGray ⟨height, width, 4, d⟩) 50 150) := by
      simp [applyCanny, hemp, hb]
    rw [hc] at hpipe
    simp only [Except.bind] at hpipe
    have hne : ¬ (cannyCore (toGray ⟨height, width, 4, d⟩) 50 150).isEmpty := by
      simpa [cannyCore, toGray, cvtColorRGBA2GRAY, Mat.isEmpty] using hemp
    rw [edgeToRGBA, if_neg hne] at hpipe
    injection hpipe with hpipe
    have hlen : r.data.length = width * height * 4 := by
      rw [← hpipe]
      simp [rgbaExpand_length, cannyCore, toGray, cvtColorRGBA2GRAY]
      ring
    refine ⟨?_, ?_, ?_, ?_, hlen⟩
    · have hw : writeOut o r.data (width * height * 4) = r.data := by
        unfold writeOut
        rw [List.take_of_length_le (le_of_eq hlen),
            List.drop_eq_nil_of_le (le_of_eq ho), List.append_nil]
      simp only [processFrame, hc, edgeToRGBA, if_neg hne, hpipe, hw]
    · rw [← hpipe]; simp [cannyCore, toGray, cvtColorRGBA2GRAY]
    · rw [← hpipe]; simp [cannyCore, toGray, cvtColorRGBA2GRAY]
    · rw [← hpipe]

theorem c4_pipeline_witness :
    (applyCanny (Mat.mk 1 1 4 [0, 0, 0, 0]) 50 150 3).bind edgeToRGBA =
      Except.ok (Mat.mk 1 1 4 [0, 0, 0, 0]) ∧
    ([9, 9, 9, 9] : List Nat).length = 1 * 1 * 4 ∧
    processFrame (some [0, 0, 0, 0]) 1 1 (some [9, 9, 9, 9]) =
      (true, some (Mat.mk 1 1 4 [0, 0, 0, 0] : Mat Nat).data) := by
  have hp : (applyCanny (Mat.mk 1 1 4 [0, 0, 0, 0]) 50 150 3).bind edgeToRGBA =
      Except.ok (Mat.mk 1 1 4 [0, 0, 0, 0]) := by
    unfold applyCanny gaussianBlur toGray cvtColorRGBA2GRAY cannyCore edgeToRGBA
    norm_num [Mat.isEmpty, rgbaToGrayData, rgb2grayFix, List.range_succ, rgbaExpand,
      Except.bind]
  exact ⟨hp, by decide,
    (c4_pipeline [0, 0, 0, 0] [9, 9, 9, 9] 1 1 ⟨1, 1, 4, [0, 0, 0, 0]⟩ hp (by decide)).1⟩

/-- C6: every failing call of processFrame leaves the caller output buffer
exactly as it was handed in — the buffer is written only after both the
detection stage and the expansion stage have succeeded, so no partial output
is ever observable. -/
theorem c6_no_partial_output (inputData : Option (List Nat)) (width height : Nat)
    (outputData : Option (List Nat))
    (hfail : (processFrame inputData width height outputData).1 = false) :
    (processFrame inputData width height outputData).2 = outputData := by
  cases inputData with
  | none => rfl
  | some d =>
    cases outputData with
    | none => rfl
    | some o =>
      cases hc : applyCanny ⟨height, width, 4, d⟩ 50 150 3 with
      | error e => simp [processFrame, hc]
      | ok edge =>
        cases hr : edgeToRGBA edge with
        | error e2 => simp [processFrame, hc, hr]
        | ok rgba => simp [processFrame, hc, hr] at hfail

theorem c6_no_partial_output_witness :
    (processFrame none 4 4 (some [1, 2, 3])).1 = false ∧
    (processFrame none 4 4 (some [1, 2, 3])).2 = some [1, 2, 3] :=
  ⟨rfl, c6_no_partial_output none 4 4 (some [1, 2, 3]) rfl⟩

/-! Claim C7: defensive draw call. -/

/-- C7: renderTexture with a zero program handle or a zero texture handle
logs the invalid-resource diagnostic and issues no GL command at all; with
both handles nonzero it issues, in order, the clear, program use, texture
bind and sampler set, the attribute setup over the quad vertex buffer, the
6-index indexed draw, and the attribute teardown. -/
theorem c7_render_defensive (vbo ebo : Nat) (sp : ShaderProgram) (ti : TextureInfo) :
    ((sp.programId = 0 ∨ ti.textureId = 0) →
      renderTexture vbo ebo sp ti = (true, [])) ∧
    (sp.programId ≠ 0 → ti.textureId ≠ 0 →
      renderTexture vbo ebo sp ti =
        (false,
         [GLCall.clearColorBuffer,
          GLCall.useProgram sp.programId,
          GLCall.activeTexture0,
          GLCall.bindTexture2D ti.textureId,
          GLCall.uniform1i sp.textureUniform 0,
          GLCall.bindArrayBuffer vbo,
          GLCall.vertexAttribPointer sp.positionAttrib 2 16 0,
          GLCall.enableVertexAttribArray sp.positionAttrib,
          GLCall.vertexAttribPointer sp.texCoordAttrib 2 16 8,
          GLCall.enableVertexAttribArray sp.texCoordAttrib,
          GLCall.bindElementArrayBuffer ebo,
          GLCall.drawElementsTriangles 6,
          GLCall.disableVertexAttribArray sp.positionAttrib,
          GLCall.disableVertexAttribArray sp.texCoordAttrib]) ∧
      GLCall.drawElementsTriangles 6 ∈ (renderTexture vbo ebo sp ti).2) := by
  constructor
  · intro h
    rw [renderTexture, if_pos h]
  · intro h1 h2
    have hn : ¬ (sp.programId = 0 ∨ ti.textureId = 0) := by tauto
    rw [renderTexture, if_neg hn]
    exact ⟨rfl, by simp⟩

theorem c7_render_defensive_witness :
    renderTexture 1 2 (ShaderProgram.mk 3 0 1 0 (-1)) (TextureInfo.mk 0 4 4 0) =
      (true, []) :=
  (c7_render_defensive 1 2 (ShaderProgram.mk 3 0 1 0 (-1))
    (TextureInfo.mk 0 4 4 0)).1 (Or.inr rfl)

/-! Claim C8: shader build failure cleanup. -/

/-- C8: a vertex-stage compile failure returns the zero program having
deleted only the vertex shader, before the fragment stage is ever created;
a fragment-stage compile failure returns the zero program after deleting the
fragment and then the vertex shader; a link failure deletes the program
object and returns a zero handle, with both shaders also released. -/
theorem c8_shader_failure_cleanup (env : GLBuildEnv) :
    (env.vertexCompiles = false →
      createShaderProgram env =
        (zeroShaderProgram,
         [ShaderEvent.createVertexShader, ShaderEvent.deleteVertexShader])) ∧
    (env.vertexCompiles = true → env.fragmentCompiles = false →
      createShaderProgram env =
        (zeroShaderProgram,
         [ShaderEvent.createVertexShader, ShaderEvent.createFragmentShader,
          ShaderEvent.deleteFragmentShader, ShaderEvent.deleteVertexShader])) ∧
    (env.vertexCompiles = true → env.fragmentCompiles = true →
      env.linkSucceeds = false →
      (createShaderProgram env).1.programId = 0 ∧
      (createShaderProgram env).2 =
        [ShaderEvent.createVertexShader, ShaderEvent.createFragmentShader,
         ShaderEvent.createProgramObject, ShaderEvent.deleteProgramObject,
         ShaderEvent.deleteVertexShader, ShaderEvent.deleteFragmentShader]) := by
  refine ⟨fun h1 => ?_, fun h1 h2 => ?_, fun h1 h2 h3 => ?_⟩
  · rw [createShaderProgram, if_pos h1]
  · rw [createShaderProgram, if_neg (by simp [h1]), if_pos h2]
  · rw [createShaderProgram, if_neg (by simp [h1]), if_neg (by simp [h2]), if_pos h3]
    exact ⟨rfl, rfl⟩

theorem c8_shader_failure_cleanup_witness :
    createShaderProgram ⟨false, true, true, 0, 1, 0, -1⟩ =
      (zeroShaderProgram,
       [ShaderEvent.createVertexShader, ShaderEvent.deleteVertexShader]) :=
  (c8_shader_failure_cleanup ⟨false, true, true, 0, 1, 0, -1⟩).1 rfl

/-! Claims C9 and C10: boundary-layer statistics. -/

theorem updatePerformanceMetrics_frameCount (s : Stats) (t : Nat) :
    (updatePerformanceMetrics s t).frameCount = s.frameCount + 1 := by
  unfold updatePerformanceMetrics
  split <;> rfl

theorem runFrames_no_sample (ts : List Nat) (s : Stats)
    (h : s.frameCount + ts.length < 30) :
    runFrames s ts = ⟨s.frameCount + ts.length, s.averageFps, s.lastFrameTime⟩ := by
  induction ts generalizing s with
  | nil => simp [runFrames]
  | cons t ts ih =>
    have hm : s.frameCount + 1 < 30 := by
      simp only [List.length_cons] at h; omega
    have hstep : updatePerformanceMetrics s t =
        ⟨s.frameCount + 1, s.averageFps, s.lastFrameTime⟩ := by
      unfold updatePerformanceMetrics
      rw [if_neg (by omega)]
    have hlen : s.frameCount + 1 + ts.length < 30 := by
      simp only [List.length_cons] at h; omega
    calc runFrames s (t :: ts)
        = runFrames ⟨s.frameCount + 1, s.averageFps, s.lastFrameTime⟩ ts := by
          simp only [runFrames, List.foldl_cons, hstep]
      _ = ⟨s.frameCount + 1 + ts.length, s.averageFps, s.lastFrameTime⟩ :=
          ih _ hlen
      _ = ⟨s.frameCount + (t :: ts).length, s.averageFps, s.lastFrameTime⟩ := by
          have he : s.frameCount + 1 + ts.length = s.frameCount + (t :: ts).length := by
            simp only [List.length_cons]; omega
          rw [he]

/-- C9: starting from a freshly initialised stats state, the 30th successful
frame sets the counter to exactly 30 and recomputes the FPS figure as 30000
over the milliseconds elapsed since the last sample (taken at init), which
is nonzero rather than the initial zero sentinel; moreover the update at any
frame recomputes the FPS figure exactly when the incremented counter is a
multiple of 30 and leaves the figure and the sample untouched otherwise. -/
theorem c9_stats_thirty (t0 : Nat) (ts : List Nat) (tl : Nat) (s : Stats) (now : Nat)
    (hlen : ts.length = 29) (ht : t0 < tl) :
    runFrames (nativeInit t0) (ts ++ [tl]) =
      ⟨30, 30000 / ((tl : ℚ) - (t0 : ℚ)), tl⟩ ∧
    (30000 / ((tl : ℚ) - (t0 : ℚ)) ≠ 0) ∧
    ((s.frameCount + 1) % 30 ≠ 0 →
      updatePerformanceMetrics s now =
        ⟨s.frameCount + 1, s.averageFps, s.lastFrameTime⟩) ∧
    ((s.frameCount + 1) % 30 = 0 →
      updatePerformanceMetrics s now =
        ⟨s.frameCount + 1, 30000 / ((now : ℚ) - (s.lastFrameTime : ℚ)), now⟩) := by
  have h29 : runFrames (nativeInit t0) ts = ⟨29, 0, t0⟩ := by
    have hr := runFrames_no_sample ts (nativeInit t0) (by simp [nativeInit, hlen])
    simpa [nativeInit, hlen] using hr
  refine ⟨?_, ?_, fun hno => ?_, fun hyes => ?_⟩
  · have hsplit : runFrames (nativeInit t0) (ts ++ [tl]) =
        updatePerformanceMetrics (runFrames (nativeInit t0) ts) tl := by
      simp [runFrames, List.foldl_append]
    rw [hsplit, h29]
    unfold updatePerformanceMetrics
    norm_num
  · have hpos : (0 : ℚ) < (tl : ℚ) - (t0 : ℚ) := by
      have hlt : (t0 : ℚ) < (tl : ℚ) := by exact_mod_cast ht
      linarith
    exact div_ne_zero (by norm_num) (ne_of_gt hpos)
  · unfold updatePerformanceMetrics
    rw [if_neg hno]
  · unfold updatePerformanceMetrics
    rw [if_pos hyes]

theorem c9_stats_thirty_witness :
    (List.replicate 29 1).length = 29 ∧ 0 < 2 ∧
    runFrames (nativeInit 0) (List.replicate 29 1 ++ [2]) =
      ⟨30, 30000 / (((2 : Nat) : ℚ) - ((0 : Nat) : ℚ)), 2⟩ :=
  ⟨by simp, by decide,
   (c9_stats_thirty 0 (List.replicate 29 1) 2 ⟨0, 0, 0⟩ 1 (by simp) (by decide)).1⟩

/-- C10: every failing call of the JNI processFrame boundary (null input
array, length mismatch against width*height*4, or a failed native pipeline)
returns null and leaves the performance state exactly as it was; a returning
call increments the frame counter by exactly one, so the counter counts only
successfully processed frames and never decreases between resets. -/
theorem c10_stats_on_success_only (s : Stats) (inputArray : Option (List Nat))
    (width height frameEnd : Nat) :
    ((jniProcessFrame s inputArray width height frameEnd).1 = none →
      (jniProcessFrame s inputArray width height frameEnd).2 = s) ∧
    ((jniProcessFrame s inputArray width height frameEnd).1 ≠ none →
      (jniProcessFrame s inputArray width height frameEnd).2.frameCount =
        s.frameCount + 1) ∧
    s.frameCount ≤ (jniProcessFrame s inputArray width height frameEnd).2.frameCount := by
  cases inputArray with
  | none => exact ⟨fun _ => rfl, fun h => absurd rfl h, le_refl _⟩
  | some arr =>
    by_cases hl : arr.length ≠ width * height * 4
    · have heq : jniProcessFrame s (some arr) width height frameEnd = (none, s) := by
        simp [jniProcessFrame, hl]
      rw [heq]
      exact ⟨fun _ => rfl, fun h => absurd rfl h, le_refl _⟩
    · rcases hp : processFrame (some arr) width height
          (some (List.replicate (width * height * 4) 0)) with ⟨b, o⟩
      cases b with
      | false =>
        cases o with
        | none =>
          have heq : jniProcessFrame s (some arr) width height frameEnd = (none, s) := by
            simp [jniProcessFrame, hl, hp]
          rw [heq]
          exact ⟨fun _ => rfl, fun h => absurd rfl h, le_refl _⟩
        | some out =>
          have heq : jniProcessFrame s (some arr) width height frameEnd = (none, s) := by
            simp [jniProcessFrame, hl, hp]
          rw [heq]
          exact ⟨fun _ => rfl, fun h => absurd rfl h, le_refl _⟩
      | true =>
        cases o with
        | none =>
          have heq : jniProcessFrame s (some arr) width height frameEnd = (none, s) := by
            simp [jniProcessFrame, hl, hp]
          rw [heq]
          exact ⟨fun _ => rfl, fun h => absurd rfl h, le_refl _⟩
        | some out =>
          have heq : jniProcessFrame s (some arr) width height frameEnd =
              (some out, updatePerformanceMetrics s frameEnd) := by
            simp [jniProcessFrame, hl, hp]
          rw [heq]
          refine ⟨fun h => absurd h (by simp),
            fun _ => updatePerformanceMetrics_frameCount s frameEnd, ?_⟩
          show s.frameCount ≤ (updatePerformanceMetrics s frameEnd).frameCount
          rw [updatePerformanceMetrics_frameCount]
          omega

theorem c10_stats_on_success_only_witness :
    (jniProcessFrame ⟨0, 0, 0⟩ none 1 1 5).1 = none ∧
    (jniProcessFrame ⟨0, 0, 0⟩ none 1 1 5).2 = ⟨0, 0, 0⟩ :=
  ⟨rfl, (c10_stats_on_success_only ⟨0, 0, 0⟩ none 1 1 5).1 rfl⟩
